import Mathlib

/-!
# Verification development for the cost-uploader pipeline

Shallow embedding of `src/cost_uploader.py`: the Criteo (Source A) and
Kelkoo (Source B) normalizers, the merger and the top-level run.

Modelling conventions:
* pandas dataframes become Lean lists of structures; a column that can be
  `NaN` becomes an `Option` field;
* monetary amounts are exact rationals (`ℚ`); `DataFrame.round(decimals=2)`
  becomes `round2`, which rounds half to even the way pandas/numpy do;
* `pandas.Series.replace({...})` becomes `replaceVia` over an association
  list: a label that is not a key of the dict is left unchanged;
* `groupby(...).agg(...)` becomes `groupBy`: one output row per distinct
  key, each aggregating the input rows that carry that key (pandas sorts
  the group keys; we keep first-appearance order, and no claim below
  depends on the ordering of groups);
* network effects and `sys.exit()` are made explicit in `run`, which
  threads an environment of responses and returns an `Outcome` together
  with the trace of observable events (prints and sheet mutations).
  A bare `sys.exit()` raises `SystemExit` with code `None`, i.e. the
  process terminates with exit status 0; an uncaught exception terminates
  with a nonzero status.
-/

namespace CostUploader

/-- `pandas.Series.replace` with a dict: a value that is a key of the dict
is replaced by the mapped value, anything else is left unchanged. -/
def replaceVia (m : List (String × String)) (s : String) : String :=
  match m.find? (fun p => p.1 = s) with
  | some p => p.2
  | none => s

/-- The device replacement dict of `__criteo_merge_and_format_dataframes`
(lines 143-150 of `cost_uploader.py`). -/
def criteoDeviceReplacements : List (String × String) :=
  [("Desktop", "desktop"), ("Tablet", "tablet"), ("CTV", "unknown"),
   ("Other", "unknown"), ("Smartphone", "mobile"), ("Unknown", "unknown")]

/-- The device replacement dict of `__kelkoo_format_and_group_dataframe`
(lines 305-314 of `cost_uploader.py`). -/
def kelkooDeviceReplacements : List (String × String) :=
  [("Computer", "desktop"), ("Desktop", "desktop"), ("Mobile", "mobile"),
   ("Tablet", "tablet"), ("CTV", "unknown"), ("Other", "unknown"),
   ("Smartphone", "mobile"), ("Unknown", "unknown")]

/-- The canonical device classes of the target schema. -/
def canonicalDevices : List String := ["desktop", "tablet", "mobile", "unknown"]

/-- Round a rational to the nearest integer, ties to even — the rounding
mode numpy/pandas use for `round`. -/
def roundHalfEven (q : ℚ) : ℤ :=
  let n := ⌊q⌋
  let r := q - n
  if r < 1 / 2 then n
  else if 1 / 2 < r then n + 1
  else if n % 2 = 0 then n else n + 1

/-- `round(decimals=2)` on an exact rational amount. -/
def round2 (q : ℚ) : ℚ := (roundHalfEven (q * 100) : ℚ) / 100

/-- The distinct values of a list in order of first appearance. -/
def dedupFirst {κ : Type} [DecidableEq κ] : List κ → List κ
  | [] => []
  | k :: t => k :: (dedupFirst t).filter (fun x => decide (x ≠ k))

/-- `groupby(key).agg(...)`: one aggregated row per distinct key, built
from the input rows carrying that key. -/
def groupBy {α κ β : Type} [DecidableEq κ] (key : α → κ) (agg : κ → List α → β)
    (l : List α) : List β :=
  (dedupFirst (l.map key)).map (fun k => agg k (l.filter (fun a => decide (key a = k))))

/-! ## Canonical schema -/

/-- A row of the canonical cost schema the pipeline converges on
(column order of lines 163-173 / 322-326): date, device, impressions,
clicks, billingcost, billingcurrency, costusd, engine, majormarket,
channel. `billingcurrency` can be `NaN` on the Criteo side. -/
structure CanonicalRow where
  date : String
  device : String
  impressions : ℤ
  clicks : ℤ
  billingcost : ℚ
  billingcurrency : Option String
  costusd : ℚ
  engine : String
  majormarket : String
  channel : String
  deriving DecidableEq, Repr

/-! ## Criteo (Source A) normalizer -/

/-- A parsed row of the Criteo USD stats CSV after `read_csv` with the
`AdvertiserId` column dropped (metrics Displays, Clicks, AdvertiserCost;
`Device` may be `NaN`, such rows are dropped by
`__criteo_create_dataframes`). -/
structure CriteoStatRow where
  Advertiser : String
  Day : String
  Device : Option String
  Displays : ℤ
  Clicks : ℤ
  AdvertiserCost : ℚ
  Currency : String
  deriving DecidableEq, Repr

/-- A parsed row of a Criteo EUR/GBP report CSV (metric AdvertiserCost
only), after `read_csv` with `AdvertiserId` dropped. -/
structure CriteoCostRow where
  Advertiser : String
  Day : String
  Device : Option String
  AdvertiserCost : ℚ
  Currency : String
  deriving DecidableEq, Repr

/-- The USD dataframe after `__criteo_create_dataframes` with
`columns_usd`: `Device` non-null rows kept, `AdvertiserCost` renamed to
`costusd` and `Currency` to `billingcurrency`. -/
structure CriteoUsdRow where
  advertiser : String
  day : String
  device : String
  displays : ℤ
  clicks : ℤ
  costusd : ℚ
  billingcurrency : String
  deriving DecidableEq, Repr

/-- A EUR/GBP dataframe row after `__criteo_create_dataframes` with
`columns_eur`/`columns_gbp` (cost and currency renamed per role). -/
structure CriteoCcyRow where
  advertiser : String
  day : String
  device : String
  billingcost : ℚ
  billingcurrency : String
  deriving DecidableEq, Repr

/-- `__criteo_create_dataframes` on the USD report: drop rows whose
`Device` is `NaN`, rename per `columns_usd`. -/
def criteo_create_usd (l : List CriteoStatRow) : List CriteoUsdRow :=
  l.filterMap (fun r =>
    match r.Device with
    | none => none
    | some d =>
      some { advertiser := r.Advertiser, day := r.Day, device := d,
             displays := r.Displays, clicks := r.Clicks,
             costusd := r.AdvertiserCost, billingcurrency := r.Currency })

/-- `__criteo_create_dataframes` on a EUR/GBP report: drop rows whose
`Device` is `NaN`, rename per the currency-role mapping. -/
def criteo_create_ccy (l : List CriteoCostRow) : List CriteoCcyRow :=
  l.filterMap (fun r =>
    match r.Device with
    | none => none
    | some d =>
      some { advertiser := r.Advertiser, day := r.Day, device := d,
             billingcost := r.AdvertiserCost, billingcurrency := r.Currency })

/-- The join key of both `pd.merge` calls: `['Advertiser', 'Day', 'Device']`. -/
def criteoJoinKey : String × String × String → String × String × String := id

/-- The result of the first outer merge (USD ⟕⟖ EUR) on
(Advertiser, Day, Device): fields of an absent side are `NaN`. -/
structure CriteoJoin1 where
  advertiser : String
  day : String
  device : String
  displays : Option ℤ
  clicks : Option ℤ
  costusd : Option ℚ
  billingcurrency : Option String
  billingcost_eur : Option ℚ
  billingcurrency_eur : Option String
  deriving DecidableEq, Repr

/-- The result of the second outer merge ((USD ⟕⟖ EUR) ⟕⟖ GBP). -/
structure CriteoJoined where
  advertiser : String
  day : String
  device : String
  displays : Option ℤ
  clicks : Option ℤ
  costusd : Option ℚ
  billingcurrency : Option String
  billingcost_eur : Option ℚ
  billingcurrency_eur : Option String
  billingcost_gbp : Option ℚ
  billingcurrency_gbp : Option String
  deriving DecidableEq, Repr

/-- `pd.merge(df_usd, df_eur, on=['Advertiser','Day','Device'],
how='outer')`: every left row paired with each matching right row (or with
`NaN` right fields if none matches), followed by the unmatched right rows. -/
def criteo_outer_merge_1 (us : List CriteoUsdRow) (es : List CriteoCcyRow) :
    List CriteoJoin1 :=
  (us.map (fun u =>
    let ms := es.filter (fun e =>
      decide (e.advertiser = u.advertiser ∧ e.day = u.day ∧ e.device = u.device))
    if ms.isEmpty then
      [{ advertiser := u.advertiser, day := u.day, device := u.device,
         displays := some u.displays, clicks := some u.clicks,
         costusd := some u.costusd, billingcurrency := some u.billingcurrency,
         billingcost_eur := none, billingcurrency_eur := none }]
    else
      ms.map (fun e =>
        { advertiser := u.advertiser, day := u.day, device := u.device,
          displays := some u.displays, clicks := some u.clicks,
          costusd := some u.costusd, billingcurrency := some u.billingcurrency,
          billingcost_eur := some e.billingcost,
          billingcurrency_eur := some e.billingcurrency }))).flatten
  ++ (es.filter (fun e => !us.any (fun u =>
        decide (e.advertiser = u.advertiser ∧ e.day = u.day ∧ e.device = u.device)))).map
      (fun e =>
        { advertiser := e.advertiser, day := e.day, device := e.device,
          displays := none, clicks := none, costusd := none,
          billingcurrency := none, billingcost_eur := some e.billingcost,
          billingcurrency_eur := some e.billingcurrency })

/-- `pd.merge(df_merged, df_gbp, on=['Advertiser','Day','Device'],
how='outer')`. -/
def criteo_outer_merge_2 (ms : List CriteoJoin1) (gs : List CriteoCcyRow) :
    List CriteoJoined :=
  (ms.map (fun m =>
    let hits := gs.filter (fun g =>
      decide (g.advertiser = m.advertiser ∧ g.day = m.day ∧ g.device = m.device))
    if hits.isEmpty then
      [{ advertiser := m.advertiser, day := m.day, device := m.device,
         displays := m.displays, clicks := m.clicks, costusd := m.costusd,
         billingcurrency := m.billingcurrency,
         billingcost_eur := m.billingcost_eur,
         billingcurrency_eur := m.billingcurrency_eur,
         billingcost_gbp := none, billingcurrency_gbp := none }]
    else
      hits.map (fun g =>
        { advertiser := m.advertiser, day := m.day, device := m.device,
          displays := m.displays, clicks := m.clicks, costusd := m.costusd,
          billingcurrency := m.billingcurrency,
          billingcost_eur := m.billingcost_eur,
          billingcurrency_eur := m.billingcurrency_eur,
          billingcost_gbp := some g.billingcost,
          billingcurrency_gbp := some g.billingcurrency }))).flatten
  ++ (gs.filter (fun g => !ms.any (fun m =>
        decide (g.advertiser = m.advertiser ∧ g.day = m.day ∧ g.device = m.device)))).map
      (fun g =>
        { advertiser := g.advertiser, day := g.day, device := g.device,
          displays := none, clicks := none, costusd := none,
          billingcurrency := none, billingcost_eur := none,
          billingcurrency_eur := none, billingcost_gbp := some g.billingcost,
          billingcurrency_gbp := some g.billingcurrency })

/-- Lines 126-127: `df_merged['billingcurrency'] =
billingcurrency_gbp.fillna(billingcurrency_eur).fillna(billingcurrency)`. -/
def criteoCoalesceCurrency (r : CriteoJoined) : Option String :=
  (r.billingcurrency_gbp.orElse (fun _ => r.billingcurrency_eur)).orElse
    (fun _ => r.billingcurrency)

/-- Lines 128-129: `df_merged['billingcost'] =
billingcost_gbp.fillna(billingcost_eur).fillna(costusd)`. -/
def criteoCoalesceCost (r : CriteoJoined) : Option ℚ :=
  (r.billingcost_gbp.orElse (fun _ => r.billingcost_eur)).orElse
    (fun _ => r.costusd)

/-- The pre-aggregation Criteo row after coalescing (126-129), the
`engine`/`channel` constants (131-132), the renames (134-140), the market
replacement (141) and the device replacement (143-150). -/
structure CriteoPre where
  date : String
  device : String
  impressions : Option ℤ
  clicks : Option ℤ
  billingcost : Option ℚ
  billingcurrency : Option String
  costusd : Option ℚ
  engine : String
  majormarket : String
  channel : String
  deriving DecidableEq, Repr

/-- One joined row taken through lines 126-150: coalesce, constants,
renames, market replacement (`settings.CRITEO_MARKET_REPLACEMENTS` is
configuration, passed in as `repl`), device replacement. -/
def criteoPreOfJoined (repl : List (String × String)) (r : CriteoJoined) : CriteoPre :=
  { date := r.day,
    device := replaceVia criteoDeviceReplacements r.device,
    impressions := r.displays,
    clicks := r.clicks,
    billingcost := criteoCoalesceCost r,
    billingcurrency := criteoCoalesceCurrency r,
    costusd := r.costusd,
    engine := "Criteo",
    majormarket := replaceVia repl r.advertiser,
    channel := "Retargeting" }

/-- The `groupby` key of lines 151-155: (date, device, majormarket, channel). -/
def criteoKey (r : CriteoPre) : String × String × String × String :=
  (r.date, r.device, r.majormarket, r.channel)

/-- pandas `max` aggregation over a column that may hold `NaN`: skips
`NaN`s, yields `NaN` when every value is. -/
def optMax (l : List (Option String)) : Option String :=
  l.foldl (fun acc o =>
    match acc, o with
    | none, o => o
    | acc, none => acc
    | some a, some b => some (max a b)) none

/-- pandas `sum` aggregation skips `NaN` (an all-`NaN` group sums to 0). -/
def optSumZ (l : List (Option ℤ)) : ℤ := (l.map (fun o => o.getD 0)).sum

/-- pandas `sum` aggregation over a rational column with `NaN`s. -/
def optSumQ (l : List (Option ℚ)) : ℚ := (l.map (fun o => o.getD 0)).sum

/-- The `.agg` of lines 156-162: sum impressions/clicks/billingcost/costusd,
max billingcurrency/engine, over one group. -/
def criteoAgg (k : String × String × String × String) (g : List CriteoPre) :
    CanonicalRow :=
  { date := k.1, device := k.2.1, majormarket := k.2.2.1, channel := k.2.2.2,
    impressions := optSumZ (g.map (fun r => r.impressions)),
    clicks := optSumZ (g.map (fun r => r.clicks)),
    billingcost := optSumQ (g.map (fun r => r.billingcost)),
    billingcurrency := optMax (g.map (fun r => r.billingcurrency)),
    costusd := optSumQ (g.map (fun r => r.costusd)),
    engine := (g.map (fun r => r.engine)).foldl max "" }

/-- The column selection and `.round(decimals=2)` of lines 163-173: the
cost columns are rounded, the integer columns are untouched. -/
def criteoRound (r : CanonicalRow) : CanonicalRow :=
  { r with billingcost := round2 r.billingcost, costusd := round2 r.costusd }

/-- The three-way outer join of lines 118-121. -/
def criteo_join3 (us : List CriteoUsdRow) (es gs : List CriteoCcyRow) :
    List CriteoJoined :=
  criteo_outer_merge_2 (criteo_outer_merge_1 us es) gs

/-- `__criteo_merge_and_format_dataframes` (lines 116-174): join, empty
check (advertiser keys are non-null strings, so `dropna().empty` is
emptiness of the joined frame), coalesce/format, group, select and round. -/
def criteo_merge_and_format (us : List CriteoUsdRow) (es gs : List CriteoCcyRow)
    (repl : List (String × String)) : Option (List CanonicalRow) :=
  if (criteo_join3 us es gs).isEmpty then none
  else
    some ((groupBy criteoKey criteoAgg
      ((criteo_join3 us es gs).map (criteoPreOfJoined repl))).map criteoRound)

/-! ## Kelkoo (Source B) normalizer -/

/-- A JSON scalar as `pd.read_json` may deliver the `date` column:
either a string or a number. -/
inductive JVal where
  | str (v : String)
  | num (v : ℤ)
  deriving DecidableEq, Repr

/-- `.astype(str)` on one JSON value. -/
def jvalStr : JVal → String
  | .str v => v
  | .num v => toString v

/-- A row of the Kelkoo statistics JSON as parsed by `pd.read_json`,
before any column is touched. -/
structure KelkooRawRow where
  date : JVal
  deviceType : String
  clicks : ℤ
  cost : ℚ
  currency : String
  catId : ℤ
  catName : String
  sales : ℤ
  orderValue : ℚ
  trackedLeads : ℤ
  costTrackedLeads : ℚ
  deriving DecidableEq, Repr

/-- The same row after line 273's `kelkoo_df['date'] =
kelkoo_df['date'].astype(str)`. -/
structure KelkooRow where
  date : String
  deviceType : String
  clicks : ℤ
  cost : ℚ
  currency : String
  catId : ℤ
  catName : String
  sales : ℤ
  orderValue : ℚ
  trackedLeads : ℤ
  costTrackedLeads : ℚ
  deriving DecidableEq, Repr

/-- Line 273 applied to a parsed row. -/
def kelkooAstype (r : KelkooRawRow) : KelkooRow :=
  { date := jvalStr r.date, deviceType := r.deviceType, clicks := r.clicks,
    cost := r.cost, currency := r.currency, catId := r.catId,
    catName := r.catName, sales := r.sales, orderValue := r.orderValue,
    trackedLeads := r.trackedLeads, costTrackedLeads := r.costTrackedLeads }

/-- `__kelkoo_create_dataframe` (lines 267-274) on an already-fetched
payload: the exact string `'[]'` is the no-data sentinel; anything else is
handed to the JSON parser (`pd.read_json`, modelled by the parameter
`parse`). When the parse yields no rows — e.g. for `" []"`, a
whitespace-padded empty array — the resulting frame has no columns and
line 273's `kelkoo_df['date']` raises `KeyError`; otherwise the date
column is stringified. -/
def kelkoo_create_dataframe (parse : String → List KelkooRawRow) (body : String) :
    Except String (Option (List KelkooRow)) :=
  if body = "[]" then .ok none
  else if parse body = [] then .error "KeyError: date"
  else .ok (some ((parse body).map kelkooAstype))

/-- The pre-aggregation Kelkoo row after the renames (290-295), the column
drops (296-304) and the device replacement (305-314). -/
structure KelkooPre where
  date : String
  device : String
  clicks : ℤ
  billingcost : ℚ
  billingcurrency : String
  deriving DecidableEq, Repr

/-- Lines 290-314 applied to one row. -/
def kelkooPreOfRow (r : KelkooRow) : KelkooPre :=
  { date := r.date,
    device := replaceVia kelkooDeviceReplacements r.deviceType,
    clicks := r.clicks,
    billingcost := r.cost,
    billingcurrency := r.currency }

/-- The `groupby` key of line 316: (date, device). -/
def kelkooKey (r : KelkooPre) : String × String := (r.date, r.device)

/-- The grouped Kelkoo row of lines 316-318 (before the derived columns). -/
structure KelkooGrouped where
  date : String
  device : String
  billingcurrency : String
  clicks : ℤ
  billingcost : ℚ
  deriving DecidableEq, Repr

/-- The `.agg` of lines 316-317: max currency, sum clicks, sum cost. -/
def kelkooAgg (k : String × String) (g : List KelkooPre) : KelkooGrouped :=
  { date := k.1, device := k.2,
    billingcurrency := (g.map (fun r => r.billingcurrency)).foldl max "",
    clicks := (g.map (fun r => r.clicks)).sum,
    billingcost := (g.map (fun r => r.billingcost)).sum }

/-- Lines 320-326: constant impressions 0, `costusd = billingcost *
usd_rate`, column selection with `.round(decimals=2)` on the cost columns,
then the constant engine/majormarket/channel columns. -/
def kelkooFinish (usd_rate : ℚ) (r : KelkooGrouped) : CanonicalRow :=
  { date := r.date, device := r.device, impressions := 0, clicks := r.clicks,
    billingcost := round2 r.billingcost,
    billingcurrency := some r.billingcurrency,
    costusd := round2 (r.billingcost * usd_rate),
    engine := "Kelkoo", majormarket := "UK", channel := "Affiliate" }

/-- `__kelkoo_format_and_group_dataframe` (lines 277-327) on an
already-fetched payload; the `KeyError` of `__kelkoo_create_dataframe`
propagates uncaught. -/
def kelkoo_format_and_group (parse : String → List KelkooRawRow) (body : String)
    (usd_rate : ℚ) : Except String (Option (List CanonicalRow)) :=
  match kelkoo_create_dataframe parse body with
  | .error e => .error e
  | .ok none => .ok none
  | .ok (some df) =>
    .ok (some ((groupBy kelkooKey kelkooAgg (df.map kelkooPreOfRow)).map
      (kelkooFinish usd_rate)))

/-! ## Merger -/

/-- The outcome of `merge_dataframes`: either the fatal "no data provided"
`sys.exit()` path or a merged frame. -/
inductive MergeOut where
  | fatal
  | rows (l : List CanonicalRow)
  deriving DecidableEq, Repr

/-- `merge_dataframes` (lines 339-348): both absent is fatal, one absent
returns the other unchanged, both present is `pd.concat` — row-wise
concatenation, Criteo first. -/
def merge_dataframes : Option (List CanonicalRow) → Option (List CanonicalRow) →
    MergeOut
  | none, none => .fatal
  | none, some k => .rows k
  | some c, none => .rows c
  | some c, some k => .rows (c ++ k)

/-! ## The top-level run

`sheet_upload` (lines 358-371) with every network interaction made
explicit. The environment holds what the outside world would answer:
an `Except` models a call that can raise (`.error e` is the transport or
parsing exception, carrying its message). -/

/-- An observable event of a run: a `print` to stdout, the
`worksheet.batch_clear(["A:J"])` of `prep_sheet`, or the
`worksheet.update(...)` of `gsheet_upload`. -/
inductive Ev where
  | print (s : String)
  | sheetClear
  | sheetWrite (rows : List CanonicalRow)
  deriving DecidableEq, Repr

/-- How the process ends: `finished` — fell off the end of the script
(exit status 0); `exitedZero` — a bare `sys.exit()`, which also yields exit
status 0; `raised m` — an uncaught exception with message `m`, exit
status 1. -/
inductive Outcome where
  | finished
  | exitedZero
  | raised (msg : String)
  deriving DecidableEq, Repr

/-- The process exit status each outcome produces. -/
def exitCode : Outcome → ℕ
  | .finished => 0
  | .exitedZero => 0
  | .raised _ => 1

/-- The outside world of one run. -/
structure Env where
  /-- `__criteo_get_auth`: the token, or the exception the `try` block catches. -/
  criteoAuth : Except String String
  /-- The USD report fetch + `read_csv`: parsed rows, or an uncaught exception. -/
  statsUsd : Except String (List CriteoStatRow)
  /-- The GBP report fetch + `read_csv`. -/
  statsGbp : Except String (List CriteoCostRow)
  /-- The EUR report fetch + `read_csv`. -/
  statsEur : Except String (List CriteoCostRow)
  /-- `__fixer_get_conversion_rate`: the GBP→USD rate, or an uncaught exception. -/
  fixerRate : Except String ℚ
  /-- The HTTP status of the Kelkoo statistics response. -/
  kelkooStatus : ℕ
  /-- The body of the Kelkoo statistics response. -/
  kelkooBody : String
  /-- `pd.read_json` on the Kelkoo body. -/
  kelkooParse : String → List KelkooRawRow
  /-- `settings.CRITEO_MARKET_REPLACEMENTS`. -/
  marketRepl : List (String × String)

/-- `sheet_upload` (line 358-371), following the source's order: Criteo
auth, the USD/GBP/EUR fetches (lines 190-202), the Criteo normalize, the
fixer rate, the Kelkoo fetch with its status check (260-264) and
sentinel/normalize, the merge, then — only then — the sheet clear
(`prep_sheet`) and the bulk write. -/
def run (env : Env) : Outcome × List Ev :=
  match env.criteoAuth with
  | .error e => (.raised e,
      [.print "Auto Cost Uploader has failed - Criteo API connection error."])
  | .ok _tok =>
  match env.statsUsd with
  | .error e => (.raised e, [])
  | .ok usdRaw =>
  match env.statsGbp with
  | .error e => (.raised e, [])
  | .ok gbpRaw =>
  match env.statsEur with
  | .error e => (.raised e, [])
  | .ok eurRaw =>
  let criteo_df := criteo_merge_and_format (criteo_create_usd usdRaw)
      (criteo_create_ccy eurRaw) (criteo_create_ccy gbpRaw) env.marketRepl
  match env.fixerRate with
  | .error e => (.raised e, [])
  | .ok rate =>
  if env.kelkooStatus ≠ 200 then
    (.exitedZero, [.print "Auto Cost Uploader has failed - Kelkoo API connection error"])
  else
    match kelkoo_format_and_group env.kelkooParse env.kelkooBody rate with
    | .error e => (.raised e, [])
    | .ok kelkoo_df =>
    match merge_dataframes criteo_df kelkoo_df with
    | .fatal => (.exitedZero, [.print "Auto Cost Uploader has failed - no data provided."])
    | .rows rs =>
      (.finished, [.sheetClear, .sheetWrite rs, .print "Finished - check sheet."])

/-! ## Concrete inputs used by the witnesses and counterexamples -/

/-- The USD-only Criteo table of the round-trip scenario: one row,
advertiser Acme, day 2024-01-01, device Desktop, 100 impressions,
5 clicks, cost 10.00 USD. -/
def acmeStatsUsd : List CriteoStatRow :=
  [{ Advertiser := "Acme", Day := "2024-01-01", Device := some "Desktop",
     Displays := 100, Clicks := 5, AdvertiserCost := 10, Currency := "USD" }]

/-- The Acme row after the three-way outer join with empty EUR and GBP
tables: all EUR/GBP fields are `NaN`. -/
def acmeJoined : CriteoJoined :=
  { advertiser := "Acme", day := "2024-01-01", device := "Desktop",
    displays := some 100, clicks := some 5, costusd := some 10,
    billingcurrency := some "USD", billingcost_eur := none,
    billingcurrency_eur := none, billingcost_gbp := none,
    billingcurrency_gbp := none }

/-- The Acme row after coalescing, constants, renames and the device
replacement. -/
def acmePre : CriteoPre :=
  { date := "2024-01-01", device := "desktop", impressions := some 100,
    clicks := some 5, billingcost := some 10, billingcurrency := some "USD",
    costusd := some 10, engine := "Criteo", majormarket := "Acme",
    channel := "Retargeting" }

/-- The canonical row the round-trip scenario must produce. -/
def acmeCanonical : CanonicalRow :=
  { date := "2024-01-01", device := "desktop", impressions := 100,
    clicks := 5, billingcost := 10, billingcurrency := some "USD",
    costusd := 10, engine := "Criteo", majormarket := "Acme",
    channel := "Retargeting" }

/-- A `pd.read_json` stand-in that parses nothing. -/
def kelkooParseNone : String → List KelkooRawRow := fun _ => []

/-- A `pd.read_json` stand-in delivering one row whose `date` is numeric. -/
def kelkooParseNum : String → List KelkooRawRow := fun _ =>
  [{ date := .num 20240101, deviceType := "Desktop", clicks := 3, cost := 5,
     currency := "GBP", catId := 1, catName := "c", sales := 0,
     orderValue := 0, trackedLeads := 0, costTrackedLeads := 0 }]

/-- The canonical row `kelkoo_format_and_group kelkooParseNum "x" 2`
produces. -/
def kelkooNumCanonical : CanonicalRow :=
  { date := "20240101", device := "desktop", impressions := 0, clicks := 3,
    billingcost := 5, billingcurrency := some "GBP", costusd := 10,
    engine := "Kelkoo", majormarket := "UK", channel := "Affiliate" }

/-- An environment where everything up to the Kelkoo fetch succeeds and
the Kelkoo endpoint answers HTTP 500. -/
def envKelkoo500 : Env :=
  { criteoAuth := .ok "token", statsUsd := .ok acmeStatsUsd,
    statsGbp := .ok [], statsEur := .ok [], fixerRate := .ok 1,
    kelkooStatus := 500, kelkooBody := "[]",
    kelkooParse := kelkooParseNone, marketRepl := [] }

/-- An environment where every call succeeds: Criteo has the Acme data,
Kelkoo returns the no-data sentinel. -/
def envSuccess : Env :=
  { criteoAuth := .ok "token", statsUsd := .ok acmeStatsUsd,
    statsGbp := .ok [], statsEur := .ok [], fixerRate := .ok 1,
    kelkooStatus := 200, kelkooBody := "[]",
    kelkooParse := kelkooParseNone, marketRepl := [] }

/-- An environment where every call succeeds but both sources are empty. -/
def envBothEmpty : Env :=
  { criteoAuth := .ok "token", statsUsd := .ok [], statsGbp := .ok [],
    statsEur := .ok [], fixerRate := .ok 1, kelkooStatus := 200,
    kelkooBody := "[]", kelkooParse := kelkooParseNone, marketRepl := [] }

/-- Criteo pre-aggregation rows with a duplicated group key. -/
def cpreEx : List CriteoPre :=
  [{ date := "2024-01-01", device := "desktop", impressions := some 10,
     clicks := some 1, billingcost := some 5, billingcurrency := some "USD",
     costusd := some 5, engine := "Criteo", majormarket := "A",
     channel := "Retargeting" },
   { date := "2024-01-01", device := "desktop", impressions := some 20,
     clicks := some 2, billingcost := some 7, billingcurrency := some "USD",
     costusd := some 7, engine := "Criteo", majormarket := "A",
     channel := "Retargeting" },
   { date := "2024-01-01", device := "mobile", impressions := none,
     clicks := some 3, billingcost := none, billingcurrency := none,
     costusd := none, engine := "Criteo", majormarket := "A",
     channel := "Retargeting" }]

/-- Kelkoo pre-aggregation rows with a duplicated group key. -/
def kpreEx : List KelkooPre :=
  [{ date := "2024-01-01", device := "desktop", clicks := 4,
     billingcost := 3, billingcurrency := "GBP" },
   { date := "2024-01-01", device := "desktop", clicks := 6,
     billingcost := 2, billingcurrency := "GBP" }]

/-- A joined Criteo row with no GBP data and EUR data present, exercising
the middle branch of the coalescing chain. -/
def joinedEurOnly : CriteoJoined :=
  { advertiser := "B", day := "2024-01-02", device := "Tablet",
    displays := none, clicks := none, costusd := none,
    billingcurrency := none, billingcost_eur := some 4,
    billingcurrency_eur := some "EUR", billingcost_gbp := none,
    billingcurrency_gbp := none }

/-! ## Grouping lemmas -/

theorem mem_dedupFirst {κ : Type} [DecidableEq κ] {l : List κ} {k : κ} :
    k ∈ dedupFirst l ↔ k ∈ l := by
  induction l with
  | nil => simp [dedupFirst]
  | cons a t ih =>
    by_cases h : k = a
    · subst h
      simp [dedupFirst]
    · simp [dedupFirst, h, List.mem_filter, ih]

theorem nodup_dedupFirst {κ : Type} [DecidableEq κ] (l : List κ) :
    (dedupFirst l).Nodup := by
  induction l with
  | nil => exact List.nodup_nil
  | cons a t ih =>
    refine List.nodup_cons.2 ⟨?_, ih.filter _⟩
    intro hmem
    have := (List.mem_filter.1 hmem).2
    simp at this

theorem filter_eq_singleton_of_nodup {κ : Type} [DecidableEq κ] {l : List κ} {k : κ}
    (hnd : l.Nodup) (hk : k ∈ l) : l.filter (fun x => decide (x = k)) = [k] := by
  induction l with
  | nil => cases hk
  | cons a t ih =>
    rcases List.nodup_cons.1 hnd with ⟨ha, hnd'⟩
    rcases List.mem_cons.1 hk with h | h
    · subst h
      have ht : t.filter (fun x => decide (x = k)) = [] := by
        apply List.filter_eq_nil_iff.2
        intro x hx
        simp only [decide_eq_true_eq]
        intro hxk
        exact ha (hxk ▸ hx)
      simp [ht]
    · have hne : a ≠ k := fun h' => ha (h' ▸ h)
      simp [List.filter_cons, hne, ih hnd' h]

theorem sum_filter_partition {α M : Type} [AddCommMonoid M] (p : α → Bool)
    (f : α → M) (l : List α) :
    ((l.filter p).map f).sum + ((l.filter (fun a => !p a)).map f).sum
      = (l.map f).sum := by
  induction l with
  | nil => simp
  | cons a t ih =>
    by_cases h : p a
    · simp only [List.filter_cons, h, if_pos, Bool.not_true, List.map_cons,
        List.sum_cons, if_neg Bool.false_ne_true, add_assoc, ih]
    · have hb : p a = false := by simpa using h
      simp only [List.filter_cons, hb, Bool.not_false, if_pos, List.map_cons,
        List.sum_cons, if_neg Bool.false_ne_true, ← ih, add_left_comm]

theorem filter_filter_of_ne {α κ : Type} [DecidableEq κ] (key : α → κ)
    {k k' : κ} (h : k' ≠ k) (l : List α) :
    (l.filter (fun a => !decide (key a = k))).filter
        (fun a => decide (key a = k'))
      = l.filter (fun a => decide (key a = k')) := by
  induction l with
  | nil => rfl
  | cons a t ih =>
    by_cases h1 : key a = k
    · have h2 : ¬key a = k' := by rw [h1]; exact fun he => h he.symm
      simp [List.filter_cons, h1, h2, Ne.symm h, ih]
    · by_cases h2 : key a = k'
      · simp [List.filter_cons, h1, h2, h, ih]
      · simp [List.filter_cons, h1, h2, h, ih]

theorem sum_over_groups {α κ M : Type} [DecidableEq κ] [AddCommMonoid M]
    (key : α → κ) (f : α → M) (ks : List κ) (l : List α) (hnd : ks.Nodup)
    (hall : ∀ a ∈ l, key a ∈ ks) :
    (ks.map (fun k =>
        ((l.filter (fun a => decide (key a = k))).map f).sum)).sum
      = (l.map f).sum := by
  induction ks generalizing l with
  | nil =>
    have hl : l = [] := List.eq_nil_iff_forall_not_mem.2
      (fun a ha => by simpa using hall a ha)
    simp [hl]
  | cons k ks' ih =>
    rcases List.nodup_cons.1 hnd with ⟨hk, hnd'⟩
    have hrest : ks'.map (fun k' =>
          ((l.filter (fun a => decide (key a = k'))).map f).sum)
        = ks'.map (fun k' =>
          (((l.filter (fun a => !decide (key a = k))).filter
              (fun a => decide (key a = k'))).map f).sum) := by
      apply List.map_congr_left
      intro k' hk'
      have hne : k' ≠ k := fun he => hk (he ▸ hk')
      rw [filter_filter_of_ne key hne]
    have hcover : ∀ a ∈ l.filter (fun a => !decide (key a = k)), key a ∈ ks' := by
      intro a ha
      rcases List.mem_filter.1 ha with ⟨hal, hneq⟩
      have : key a ≠ k := by simpa using hneq
      rcases List.mem_cons.1 (hall a hal) with h | h
      · exact absurd h this
      · exact h
    calc ((k :: ks').map (fun k' =>
            ((l.filter (fun a => decide (key a = k'))).map f).sum)).sum
        = ((l.filter (fun a => decide (key a = k))).map f).sum
          + (ks'.map (fun k' =>
              ((l.filter (fun a => decide (key a = k'))).map f).sum)).sum := by
          simp
      _ = ((l.filter (fun a => decide (key a = k))).map f).sum
          + ((l.filter (fun a => !decide (key a = k))).map f).sum := by
          rw [hrest, ih _ hnd' hcover]
      _ = (l.map f).sum := sum_filter_partition _ f l

/-- Total-sum preservation of `groupBy`: any additive column the
aggregation computes as a per-group sum has, summed over the grouped
output, the same total as over the ungrouped input. -/
theorem groupBy_sum {α κ β M : Type} [DecidableEq κ] [AddCommMonoid M]
    (key : α → κ) (agg : κ → List α → β) (f : α → M) (g : β → M)
    (hg : ∀ k gr, g (agg k gr) = (gr.map f).sum) (l : List α) :
    ((groupBy key agg l).map g).sum = (l.map f).sum := by
  unfold groupBy
  rw [List.map_map]
  have hfun : (g ∘ fun k => agg k (l.filter (fun a => decide (key a = k))))
      = fun k => ((l.filter (fun a => decide (key a = k))).map f).sum := by
    funext k
    exact hg k _
  rw [hfun]
  apply sum_over_groups key f _ l (nodup_dedupFirst _)
  intro a ha
  exact mem_dedupFirst.2 (List.mem_map_of_mem key ha)

/-- Per-key characterisation of `groupBy`: a key occurring in the input
yields exactly one output row, the aggregate of the input rows carrying
that key. -/
theorem groupBy_filter_key {α κ β : Type} [DecidableEq κ] (key : α → κ)
    (agg : κ → List α → β) (outKey : β → κ)
    (hout : ∀ k g, outKey (agg k g) = k) (l : List α) (k₀ : κ)
    (hk : k₀ ∈ l.map key) :
    (groupBy key agg l).filter (fun b => decide (outKey b = k₀))
      = [agg k₀ (l.filter (fun a => decide (key a = k₀)))] := by
  unfold groupBy
  rw [List.filter_map]
  have hfun : ((fun b => decide (outKey b = k₀)) ∘
        fun k => agg k (l.filter (fun a => decide (key a = k))))
      = fun k => decide (k = k₀) := by
    funext k
    simp [hout]
  rw [hfun, filter_eq_singleton_of_nodup (nodup_dedupFirst _)
    (mem_dedupFirst.2 hk)]
  rfl

/-! ## Replacement-map lemmas -/

theorem replaceVia_of_not_key (m : List (String × String)) (s : String)
    (h : ∀ p ∈ m, p.1 ≠ s) : replaceVia m s = s := by
  unfold replaceVia
  cases hf : m.find? (fun p => decide (p.1 = s)) with
  | none => rfl
  | some p =>
    have hp := List.find?_some hf
    have hm := List.mem_of_find?_eq_some hf
    exact absurd (of_decide_eq_true hp) (h p hm)

theorem replaceVia_idem (m : List (String × String))
    (hvals : ∀ p ∈ m, ∀ q ∈ m, q.1 ≠ p.2) (s : String) :
    replaceVia m (replaceVia m s) = replaceVia m s := by
  cases hf : m.find? (fun p => decide (p.1 = s)) with
  | none =>
    have h1 : replaceVia m s = s := by unfold replaceVia; rw [hf]
    rw [h1]
    exact h1
  | some p =>
    have h1 : replaceVia m s = p.2 := by unfold replaceVia; rw [hf]
    rw [h1]
    exact replaceVia_of_not_key m p.2
      (fun q hq => hvals p (List.mem_of_find?_eq_some hf) q hq)

/-! ## Claim C1 — device taxonomy -/

/-- C1, counterexample: the device replacement of the Criteo normalizer
leaves a label outside its known set unchanged instead of mapping it to
`unknown` — `"Mobile"` is not a key of the Criteo dict (only the Kelkoo
dict knows it), survives as `"Mobile"`, and is not even a canonical
class. -/
theorem c1_device_taxonomy_counterexample :
    replaceVia criteoDeviceReplacements "Mobile" = "Mobile"
    ∧ replaceVia criteoDeviceReplacements "Mobile" ≠ "unknown"
    ∧ "Mobile" ∉ criteoDeviceReplacements.map Prod.fst
    ∧ "Mobile" ∉ canonicalDevices := by
  refine ⟨by decide, by decide, by decide, by decide⟩

/-- C1, amended: both device replacements map every label of their known
set to exactly one canonical class and are idempotent, but a label outside
the known set is left unchanged (pandas `replace` semantics), not mapped
to `unknown`. -/
theorem c1_device_taxonomy_amended :
    (∀ d ∈ criteoDeviceReplacements.map Prod.fst,
      replaceVia criteoDeviceReplacements d ∈ canonicalDevices)
    ∧ (∀ d ∈ kelkooDeviceReplacements.map Prod.fst,
      replaceVia kelkooDeviceReplacements d ∈ canonicalDevices)
    ∧ (∀ d, replaceVia criteoDeviceReplacements
        (replaceVia criteoDeviceReplacements d)
        = replaceVia criteoDeviceReplacements d)
    ∧ (∀ d, replaceVia kelkooDeviceReplacements
        (replaceVia kelkooDeviceReplacements d)
        = replaceVia kelkooDeviceReplacements d)
    ∧ (∀ d, d ∉ criteoDeviceReplacements.map Prod.fst →
        replaceVia criteoDeviceReplacements d = d)
    ∧ (∀ d, d ∉ kelkooDeviceReplacements.map Prod.fst →
        replaceVia kelkooDeviceReplacements d = d) := by
  refine ⟨by decide, by decide, ?_, ?_, ?_, ?_⟩
  · exact replaceVia_idem criteoDeviceReplacements (by decide)
  · exact replaceVia_idem kelkooDeviceReplacements (by decide)
  · intro d hd
    exact replaceVia_of_not_key _ d
      (fun p hp he => hd (he ▸ List.mem_map_of_mem Prod.fst hp))
  · intro d hd
    exact replaceVia_of_not_key _ d
      (fun p hp he => hd (he ▸ List.mem_map_of_mem Prod.fst hp))

/-- Witness for `c1_device_taxonomy_amended` at concrete labels. -/
theorem c1_device_taxonomy_amended_witness :
    replaceVia criteoDeviceReplacements "Desktop" ∈ canonicalDevices
    ∧ replaceVia criteoDeviceReplacements
        (replaceVia criteoDeviceReplacements "CTV")
      = replaceVia criteoDeviceReplacements "CTV"
    ∧ replaceVia kelkooDeviceReplacements "SmartTV" = "SmartTV" :=
  ⟨c1_device_taxonomy_amended.1 "Desktop" (by decide),
   c1_device_taxonomy_amended.2.2.1 "CTV",
   c1_device_taxonomy_amended.2.2.2.2.2 "SmartTV" (by decide)⟩

/-! ## Claim C3 — currency/cost coalescing -/

/-- C3: on every joined Source A row, the normalizer's currency and cost
columns follow the priority GBP over EUR over USD-native:
`billingcurrency` is the GBP currency if present, else the EUR currency,
else the USD-table currency; `billingcost` is the GBP cost if present,
else the EUR cost, else `costusd` — and these are exactly the fields the
pre-aggregation row carries into the grouping. -/
theorem c3_coalescing_priority (repl : List (String × String)) (r : CriteoJoined) :
    ((∀ v, r.billingcurrency_gbp = some v → criteoCoalesceCurrency r = some v)
      ∧ (r.billingcurrency_gbp = none → ∀ v, r.billingcurrency_eur = some v →
          criteoCoalesceCurrency r = some v)
      ∧ (r.billingcurrency_gbp = none → r.billingcurrency_eur = none →
          criteoCoalesceCurrency r = r.billingcurrency))
    ∧ ((∀ v, r.billingcost_gbp = some v → criteoCoalesceCost r = some v)
      ∧ (r.billingcost_gbp = none → ∀ v, r.billingcost_eur = some v →
          criteoCoalesceCost r = some v)
      ∧ (r.billingcost_gbp = none → r.billingcost_eur = none →
          criteoCoalesceCost r = r.costusd))
    ∧ (criteoPreOfJoined repl r).billingcurrency = criteoCoalesceCurrency r
    ∧ (criteoPreOfJoined repl r).billingcost = criteoCoalesceCost r := by
  refine ⟨⟨?_, ?_, ?_⟩, ⟨?_, ?_, ?_⟩, rfl, rfl⟩
  · intro v hv
    simp [criteoCoalesceCurrency, hv, Option.orElse]
  · intro h0 v hv
    simp [criteoCoalesceCurrency, h0, hv, Option.orElse]
  · intro h0 h1
    simp [criteoCoalesceCurrency, h0, h1, Option.orElse]
  · intro v hv
    simp [criteoCoalesceCost, hv, Option.orElse]
  · intro h0 v hv
    simp [criteoCoalesceCost, h0, hv, Option.orElse]
  · intro h0 h1
    simp [criteoCoalesceCost, h0, h1, Option.orElse]

/-- Witness for `c3_coalescing_priority`: a row present only in the EUR
table gets the EUR currency and cost. -/
theorem c3_coalescing_priority_witness :
    criteoCoalesceCurrency joinedEurOnly = some "EUR"
    ∧ criteoCoalesceCost joinedEurOnly = some 4 :=
  ⟨(c3_coalescing_priority [] joinedEurOnly).1.2.1 rfl "EUR" rfl,
   (c3_coalescing_priority [] joinedEurOnly).2.1.2.1 rfl 4 rfl⟩

/-! ## Claim C4 — merge absorbs absence -/

/-- C4: the merger returns a lone present input unchanged, treats two
absent inputs as the fatal "no data provided" outcome, and concatenates
two present inputs row-wise with no further aggregation. -/
theorem c4_merge_absorbs_absence (A B : List CanonicalRow) :
    merge_dataframes (some A) none = .rows A
    ∧ merge_dataframes none (some B) = .rows B
    ∧ merge_dataframes none none = .fatal
    ∧ merge_dataframes (some A) (some B) = .rows (A ++ B) :=
  ⟨rfl, rfl, rfl, rfl⟩

/-! ## Claim C9 — merge preserves per-source order -/

/-- C9: with both inputs present the merged output is all Criteo rows
followed by all Kelkoo rows, each side in its own order: the first
`A.length` rows are exactly `A` and the remainder is exactly `B`. -/
theorem c9_merge_concat_order (A B : List CanonicalRow) :
    ∃ out, merge_dataframes (some A) (some B) = .rows out
      ∧ out.length = A.length + B.length
      ∧ out.take A.length = A
      ∧ out.drop A.length = B :=
  ⟨A ++ B, rfl, List.length_append A B, List.take_left A B, List.drop_left A B⟩

/-! ## Claim C6 — per-source aggregation -/

/-- C6: within each source duplicates are aggregated exactly once —
Criteo rows grouped by (date, device, majormarket, channel) and Kelkoo
rows by (date, device) yield exactly one output row per input key, the
aggregate (sums of the additive columns, max of currency/engine) of the
input rows carrying that key; and the grouping is sum-preserving: the
clicks/impressions (and Kelkoo billingcost) totals over the grouped
output equal the totals over the ungrouped input. -/
theorem c6_aggregation_sum_preserving (cpre : List CriteoPre)
    (kpre : List KelkooPre) :
    (∀ k ∈ cpre.map criteoKey,
      (groupBy criteoKey criteoAgg cpre).filter
          (fun r => decide ((r.date, r.device, r.majormarket, r.channel) = k))
        = [criteoAgg k (cpre.filter (fun r => decide (criteoKey r = k)))])
    ∧ ((groupBy criteoKey criteoAgg cpre).map (fun r => r.clicks)).sum
        = (cpre.map (fun r => r.clicks.getD 0)).sum
    ∧ ((groupBy criteoKey criteoAgg cpre).map (fun r => r.impressions)).sum
        = (cpre.map (fun r => r.impressions.getD 0)).sum
    ∧ (∀ k ∈ kpre.map kelkooKey,
      (groupBy kelkooKey kelkooAgg kpre).filter
          (fun r => decide ((r.date, r.device) = k))
        = [kelkooAgg k (kpre.filter (fun r => decide (kelkooKey r = k)))])
    ∧ ((groupBy kelkooKey kelkooAgg kpre).map (fun r => r.clicks)).sum
        = (kpre.map (fun r => r.clicks)).sum
    ∧ ((groupBy kelkooKey kelkooAgg kpre).map (fun r => r.billingcost)).sum
        = (kpre.map (fun r => r.billingcost)).sum := by
  refine ⟨?_, ?_, ?_, ?_, ?_, ?_⟩
  · intro k hk
    exact groupBy_filter_key criteoKey criteoAgg
      (fun r => (r.date, r.device, r.majormarket, r.channel))
      (fun k g => rfl) cpre k hk
  · exact groupBy_sum criteoKey criteoAgg (fun r => r.clicks.getD 0)
      (fun r => r.clicks)
      (fun k gr => by simp only [criteoAgg, optSumZ, List.map_map]; rfl)
      cpre
  · exact groupBy_sum criteoKey criteoAgg (fun r => r.impressions.getD 0)
      (fun r => r.impressions)
      (fun k gr => by simp only [criteoAgg, optSumZ, List.map_map]; rfl)
      cpre
  · intro k hk
    exact groupBy_filter_key kelkooKey kelkooAgg
      (fun r => (r.date, r.device)) (fun k g => rfl) kpre k hk
  · exact groupBy_sum kelkooKey kelkooAgg (fun r => r.clicks)
      (fun r => r.clicks) (fun k gr => by simp [kelkooAgg]) kpre
  · exact groupBy_sum kelkooKey kelkooAgg (fun r => r.billingcost)
      (fun r => r.billingcost) (fun k gr => by simp [kelkooAgg]) kpre

/-- Witness for `c6_aggregation_sum_preserving` on inputs with duplicated
keys. -/
theorem c6_aggregation_sum_preserving_witness :
    ("2024-01-01", "desktop", "A", "Retargeting") ∈ cpreEx.map criteoKey
    ∧ (groupBy criteoKey criteoAgg cpreEx).filter
        (fun r => decide ((r.date, r.device, r.majormarket, r.channel)
          = ("2024-01-01", "desktop", "A", "Retargeting")))
      = [criteoAgg ("2024-01-01", "desktop", "A", "Retargeting")
          (cpreEx.filter (fun r => decide (criteoKey r
            = ("2024-01-01", "desktop", "A", "Retargeting"))))]
    ∧ ((groupBy kelkooKey kelkooAgg kpreEx).map (fun r => r.clicks)).sum
        = (kpreEx.map (fun r => r.clicks)).sum :=
  ⟨by decide,
   (c6_aggregation_sum_preserving cpreEx kpreEx).1 _ (by decide),
   (c6_aggregation_sum_preserving cpreEx kpreEx).2.2.2.2.1⟩

/-! ## Claim C7 — round-trip scenario -/

/-- C7: a USD-only Criteo table holding the single Acme row, joined with
empty EUR and GBP tables, normalizes to exactly one canonical row with
the claimed values (the spec's `engine=SourceA` names the source whose
literal tag is `Criteo`). The hypothesis `h` says the configured market
substitution table leaves `Acme` alone, as the scenario requires. -/
theorem c7_roundtrip (repl : List (String × String))
    (h : replaceVia repl "Acme" = "Acme") :
    criteo_merge_and_format (criteo_create_usd acmeStatsUsd)
        (criteo_create_ccy []) (criteo_create_ccy []) repl
      = some [acmeCanonical] := by
  have hdev : replaceVia criteoDeviceReplacements "Desktop" = "desktop" := by
    decide
  have hjoin : criteo_join3 (criteo_create_usd acmeStatsUsd)
      (criteo_create_ccy []) (criteo_create_ccy []) = [acmeJoined] := by decide
  have hpre : criteoPreOfJoined repl acmeJoined = acmePre := by
    simp [criteoPreOfJoined, acmeJoined, acmePre, criteoCoalesceCurrency,
      criteoCoalesceCost, hdev, h, Option.orElse]
  unfold criteo_merge_and_format
  rw [hjoin]
  simp only [List.map_cons, List.map_nil, hpre]
  norm_num [groupBy, dedupFirst, criteoKey, criteoAgg, criteoRound, optSumZ,
    optSumQ, optMax, acmePre, acmeCanonical, round2, roundHalfEven,
    List.filter]

/-- Witness for `c7_roundtrip` with an empty substitution table. -/
theorem c7_roundtrip_witness :
    criteo_merge_and_format (criteo_create_usd acmeStatsUsd)
        (criteo_create_ccy []) (criteo_create_ccy []) []
      = some [acmeCanonical] :=
  c7_roundtrip [] (by decide)

/-! ## Claim C8 — the no-data sentinel is exact text equality -/

/-- C8, counterexample: the whitespace-padded empty array `" []"` is not
the sentinel (exact equality fails), but it is not "parsed as a table"
either: the parse yields no rows, the frame has no columns, and line 273's
date access raises `KeyError` — the function errors out instead of
returning a table (and in particular does not return the absent result). -/
theorem c8_sentinel_counterexample :
    (" []" : String) ≠ "[]"
    ∧ kelkoo_create_dataframe kelkooParseNone " []" = .error "KeyError: date"
    ∧ kelkoo_create_dataframe kelkooParseNone " []" ≠ .ok none := by
  refine ⟨by decide, rfl, fun h => ?_⟩
  rw [(rfl : kelkoo_create_dataframe kelkooParseNone " []"
      = Except.error "KeyError: date")] at h
  exact Except.noConfusion h

/-- C8, amended: the no-data sentinel is recognised by exact text
equality — precisely the two-character string `"[]"` yields the absent
result. Any other payload is handed to the JSON parser; if it parses to
zero rows (as whitespace-padded empty arrays do), the date-column access
raises `KeyError` rather than producing a table, and only a payload
parsing to at least one row is returned as a table. -/
theorem c8_sentinel_exact (parse : String → List KelkooRawRow) (body : String) :
    (body = "[]" → kelkoo_create_dataframe parse body = .ok none)
    ∧ (body ≠ "[]" → parse body = [] →
        kelkoo_create_dataframe parse body = .error "KeyError: date")
    ∧ (body ≠ "[]" → parse body ≠ [] →
        kelkoo_create_dataframe parse body
          = .ok (some ((parse body).map kelkooAstype))) := by
  refine ⟨?_, ?_, ?_⟩
  · intro h
    simp [kelkoo_create_dataframe, h]
  · intro h hp
    simp [kelkoo_create_dataframe, h, hp]
  · intro h hp
    simp [kelkoo_create_dataframe, h, hp]

/-- Witness for `c8_sentinel_exact`: the exact sentinel is absent, the
padded `" []"` with an empty parse raises, and a payload parsing to one
row becomes a table. -/
theorem c8_sentinel_exact_witness :
    kelkoo_create_dataframe kelkooParseNone "[]" = .ok none
    ∧ kelkoo_create_dataframe kelkooParseNone " []" = .error "KeyError: date"
    ∧ kelkoo_create_dataframe kelkooParseNum " []"
        = .ok (some ((kelkooParseNum " []").map kelkooAstype)) :=
  ⟨(c8_sentinel_exact kelkooParseNone "[]").1 rfl,
   (c8_sentinel_exact kelkooParseNone " []").2.1 (by decide) rfl,
   (c8_sentinel_exact kelkooParseNum " []").2.2 (by decide) (by decide)⟩

/-! ## Claim C10 — Kelkoo dates are strings -/

/-- C10: the date column is stringified right after parsing, so every date
in a table the Kelkoo normalizer returns is the string form of some parsed
raw date value — also when the parser yields numeric dates. -/
theorem c10_kelkoo_dates_are_strings (parse : String → List KelkooRawRow)
    (body : String) (rate : ℚ) (df : List CanonicalRow)
    (hdf : kelkoo_format_and_group parse body rate = .ok (some df)) :
    ∀ r ∈ df, ∃ raw ∈ parse body, r.date = jvalStr raw.date := by
  intro r hr
  by_cases hb : body = "[]"
  · simp [kelkoo_format_and_group, kelkoo_create_dataframe, hb] at hdf
  by_cases hp : parse body = []
  · simp [kelkoo_format_and_group, kelkoo_create_dataframe, hb, hp] at hdf
  have hdf' : df = (groupBy kelkooKey kelkooAgg
      (((parse body).map kelkooAstype).map kelkooPreOfRow)).map
        (kelkooFinish rate) := by
    simp [kelkoo_format_and_group, kelkoo_create_dataframe, hb, hp] at hdf
    rw [List.map_map]
    exact hdf.symm
  rw [hdf'] at hr
  obtain ⟨gr, hgr, hfin⟩ := List.mem_map.1 hr
  obtain ⟨k, hk, hagg⟩ := List.mem_map.1 hgr
  obtain ⟨p, hp, hkey⟩ := List.mem_map.1 (mem_dedupFirst.1 hk)
  obtain ⟨row, hrow, hpre⟩ := List.mem_map.1 hp
  obtain ⟨raw, hraw, hast⟩ := List.mem_map.1 hrow
  refine ⟨raw, hraw, ?_⟩
  rw [← hfin, ← hagg]
  have hk1 : k.1 = jvalStr raw.date := by
    rw [← hkey, ← hpre, ← hast]
    rfl
  exact hk1

/-- Witness for `c10_kelkoo_dates_are_strings` at a parser that yields a
numeric date. -/
theorem c10_kelkoo_dates_are_strings_witness :
    ∃ raw ∈ kelkooParseNum "x", kelkooNumCanonical.date = jvalStr raw.date := by
  have hc1 : kelkoo_create_dataframe kelkooParseNum "x"
      = .ok (some [{ date := "20240101", deviceType := "Desktop",
                     clicks := 3, cost := 5, currency := "GBP", catId := 1,
                     catName := "c", sales := 0, orderValue := 0,
                     trackedLeads := 0, costTrackedLeads := 0 }]) := by
    have hstr : jvalStr (JVal.num 20240101) = "20240101" := by decide
    simp [kelkoo_create_dataframe, kelkooParseNum, kelkooAstype, hstr]
  have h : kelkoo_format_and_group kelkooParseNum "x" 2
      = .ok (some [kelkooNumCanonical]) := by
    have hdev : replaceVia kelkooDeviceReplacements "Desktop" = "desktop" := by
      decide
    simp only [kelkoo_format_and_group, hc1]
    norm_num [kelkooPreOfRow, kelkooKey, kelkooAgg, kelkooFinish, groupBy,
      dedupFirst, kelkooNumCanonical, round2, roundHalfEven, hdev,
      List.filter]
  exact c10_kelkoo_dates_are_strings kelkooParseNum "x" 2 [kelkooNumCanonical]
    h kelkooNumCanonical (by simp)

/-! ## Claims C2 and C5 — process exit behaviour and sheet mutation -/

/-- Evaluating the Criteo normalizer on the Acme scenario with an empty
substitution table (shared by the run-level witnesses). -/
theorem criteo_acme_eval :
    criteo_merge_and_format (criteo_create_usd acmeStatsUsd)
        (criteo_create_ccy []) (criteo_create_ccy []) []
      = some [acmeCanonical] := by
  have hjoin : criteo_join3 (criteo_create_usd acmeStatsUsd)
      (criteo_create_ccy []) (criteo_create_ccy []) = [acmeJoined] := by decide
  have hpre : criteoPreOfJoined [] acmeJoined = acmePre := by decide
  unfold criteo_merge_and_format
  rw [hjoin]
  simp only [List.map_cons, List.map_nil, hpre]
  norm_num [groupBy, dedupFirst, criteoKey, criteoAgg, criteoRound, optSumZ,
    optSumQ, optMax, acmePre, acmeCanonical, round2, roundHalfEven,
    List.filter]

/-- C2, counterexample: a run whose only fault is a non-200 Kelkoo HTTP
status prints a failure message but terminates through the bare
`sys.exit()` of `__kelkoo_get_json`, i.e. with exit status 0 — the same
status as success, not a non-zero/abnormal outcome. -/
theorem c2_exit_behavior_counterexample :
    envKelkoo500.kelkooStatus ≠ 200
    ∧ run envKelkoo500 = (.exitedZero,
        [.print "Auto Cost Uploader has failed - Kelkoo API connection error"])
    ∧ exitCode (run envKelkoo500).1 = 0 :=
  ⟨by decide, rfl, rfl⟩

/-- C2, amended: every fatal error halts the run before the upload with a
diagnostic — the Source A auth failure prints its message and re-raises
(exit status 1), transport failures propagate as uncaught exceptions
(exit status 1), but the Source B non-200 status and the both-sources-empty
condition terminate via a bare `sys.exit()` with exit status 0; a
successful run finishes normally, printing the confirmation message. -/
theorem c2_exit_behavior_amended (env : Env) :
    (∀ e, env.criteoAuth = .error e →
      run env = (.raised e,
        [.print "Auto Cost Uploader has failed - Criteo API connection error."])
      ∧ exitCode (run env).1 = 1)
    ∧ (∀ t e, env.criteoAuth = .ok t → env.statsUsd = .error e →
        run env = (.raised e, []) ∧ exitCode (run env).1 = 1)
    ∧ (∀ t u e, env.criteoAuth = .ok t → env.statsUsd = .ok u →
        env.statsGbp = .error e → run env = (.raised e, []))
    ∧ (∀ t u g e, env.criteoAuth = .ok t → env.statsUsd = .ok u →
        env.statsGbp = .ok g → env.statsEur = .error e →
        run env = (.raised e, []))
    ∧ (∀ t u g er e, env.criteoAuth = .ok t → env.statsUsd = .ok u →
        env.statsGbp = .ok g → env.statsEur = .ok er →
        env.fixerRate = .error e → run env = (.raised e, []))
    ∧ (∀ t u g er rate, env.criteoAuth = .ok t → env.statsUsd = .ok u →
        env.statsGbp = .ok g → env.statsEur = .ok er →
        env.fixerRate = .ok rate → env.kelkooStatus ≠ 200 →
        run env = (.exitedZero,
          [.print "Auto Cost Uploader has failed - Kelkoo API connection error"])
        ∧ exitCode (run env).1 = 0)
    ∧ (∀ t u g er rate e, env.criteoAuth = .ok t → env.statsUsd = .ok u →
        env.statsGbp = .ok g → env.statsEur = .ok er →
        env.fixerRate = .ok rate → env.kelkooStatus = 200 →
        kelkoo_format_and_group env.kelkooParse env.kelkooBody rate
          = .error e →
        run env = (.raised e, []) ∧ exitCode (run env).1 = 1)
    ∧ (∀ t u g er rate kdf, env.criteoAuth = .ok t → env.statsUsd = .ok u →
        env.statsGbp = .ok g → env.statsEur = .ok er →
        env.fixerRate = .ok rate → env.kelkooStatus = 200 →
        kelkoo_format_and_group env.kelkooParse env.kelkooBody rate
          = .ok kdf →
        merge_dataframes
            (criteo_merge_and_format (criteo_create_usd u)
              (criteo_create_ccy er) (criteo_create_ccy g) env.marketRepl)
            kdf
          = .fatal →
        run env = (.exitedZero,
          [.print "Auto Cost Uploader has failed - no data provided."])
        ∧ exitCode (run env).1 = 0)
    ∧ (∀ t u g er rate kdf rows, env.criteoAuth = .ok t → env.statsUsd = .ok u →
        env.statsGbp = .ok g → env.statsEur = .ok er →
        env.fixerRate = .ok rate → env.kelkooStatus = 200 →
        kelkoo_format_and_group env.kelkooParse env.kelkooBody rate
          = .ok kdf →
        merge_dataframes
            (criteo_merge_and_format (criteo_create_usd u)
              (criteo_create_ccy er) (criteo_create_ccy g) env.marketRepl)
            kdf
          = .rows rows →
        run env = (.finished,
          [.sheetClear, .sheetWrite rows, .print "Finished - check sheet."])
        ∧ exitCode (run env).1 = 0) := by
  obtain ⟨a, u0, g0, er0, fx, st, body, parse, repl⟩ := env
  refine ⟨?_, ?_, ?_, ?_, ?_, ?_, ?_, ?_, ?_⟩
  · intro e he
    cases he
    exact ⟨rfl, rfl⟩
  · intro t e ht he
    cases ht
    cases he
    exact ⟨rfl, rfl⟩
  · intro t u e ht hu he
    cases ht; cases hu; cases he
    rfl
  · intro t u g e ht hu hg he
    cases ht; cases hu; cases hg; cases he
    rfl
  · intro t u g er e ht hu hg her he
    cases ht; cases hu; cases hg; cases her; cases he
    rfl
  · intro t u g er rate ht hu hg her hr hst
    cases ht; cases hu; cases hg; cases her; cases hr
    constructor
    · simp [run, hst]
    · simp [run, hst, exitCode]
  · intro t u g er rate e ht hu hg her hr hst hk
    cases ht; cases hu; cases hg; cases her; cases hr
    subst hst
    constructor
    · simp [run, hk]
    · simp [run, hk, exitCode]
  · intro t u g er rate kdf ht hu hg her hr hst hk hm
    cases ht; cases hu; cases hg; cases her; cases hr
    subst hst
    constructor
    · simp [run, hk, hm]
    · simp [run, hk, hm, exitCode]
  · intro t u g er rate kdf rows ht hu hg her hr hst hk hm
    cases ht; cases hu; cases hg; cases her; cases hr
    subst hst
    constructor
    · simp [run, hk, hm]
    · simp [run, hk, hm, exitCode]

/-- Witness for `c2_exit_behavior_amended`: the all-successful environment
finishes normally with the confirmation message. -/
theorem c2_exit_behavior_amended_witness :
    run envSuccess = (.finished,
      [.sheetClear, .sheetWrite [acmeCanonical],
       .print "Finished - check sheet."])
    ∧ exitCode (run envSuccess).1 = 0 := by
  have hkelkoo : kelkoo_format_and_group envSuccess.kelkooParse
      envSuccess.kelkooBody 1 = .ok none := rfl
  have hmerge : merge_dataframes
      (criteo_merge_and_format (criteo_create_usd acmeStatsUsd)
        (criteo_create_ccy []) (criteo_create_ccy [])
        envSuccess.marketRepl)
      none
      = .rows [acmeCanonical] := by
    show merge_dataframes
        (criteo_merge_and_format (criteo_create_usd acmeStatsUsd)
          (criteo_create_ccy []) (criteo_create_ccy []) [])
        none
      = .rows [acmeCanonical]
    rw [criteo_acme_eval]
    rfl
  exact (c2_exit_behavior_amended envSuccess).2.2.2.2.2.2.2.2 "token"
    acmeStatsUsd [] [] 1 none [acmeCanonical] rfl rfl rfl rfl rfl rfl
    hkelkoo hmerge

/-- C5: a run that does not reach normal completion — any abort in the
fetch/normalize/merge stages — leaves the sheet untouched: its event trace
contains neither the A:J clear nor a write. -/
theorem c5_no_mutation_on_abort (env : Env)
    (h : (run env).1 ≠ .finished) :
    Ev.sheetClear ∉ (run env).2 ∧ ∀ rs, Ev.sheetWrite rs ∉ (run env).2 := by
  obtain ⟨a, u0, g0, er0, fx, st, body, parse, repl⟩ := env
  cases a with
  | error e => simp [run]
  | ok t =>
  cases u0 with
  | error e => simp [run]
  | ok u =>
  cases g0 with
  | error e => simp [run]
  | ok g =>
  cases er0 with
  | error e => simp [run]
  | ok er =>
  cases fx with
  | error e => simp [run]
  | ok rate =>
  by_cases hst : st = 200
  · subst hst
    cases hk : kelkoo_format_and_group parse body rate with
    | error e => simp [run, hk]
    | ok kdf =>
      rcases hm : merge_dataframes
          (criteo_merge_and_format (criteo_create_usd u) (criteo_create_ccy er)
            (criteo_create_ccy g) repl) kdf with _ | rows
      · simp [run, hk, hm]
      · exfalso
        apply h
        simp [run, hk, hm]
  · simp [run, hst]

/-- Witness for `c5_no_mutation_on_abort`: the both-sources-empty abort
leaves no sheet event in the trace. -/
theorem c5_no_mutation_on_abort_witness :
    (run envBothEmpty).1 ≠ .finished
    ∧ Ev.sheetClear ∉ (run envBothEmpty).2
    ∧ ∀ rs, Ev.sheetWrite rs ∉ (run envBothEmpty).2 := by
  have hne : (run envBothEmpty).1 ≠ .finished := by decide
  exact ⟨hne, (c5_no_mutation_on_abort envBothEmpty hne).1,
    (c5_no_mutation_on_abort envBothEmpty hne).2⟩

end CostUploader
